import Mathlib

/-!
# Verification of the prediction-market trading bot core

Shallow embedding of the risk-managed trade lifecycle of the bot:
position sizing and the risk gate (`autobot/risk/manager.py`), the
opportunity-evaluation pipeline (`autobot/trading/executor.py`), the
position limit monitor and position closing
(`autobot/trading/polymarket_client.py`), and the open-position
persistence round trip (`autobot/data/database.py`).

Monetary amounts and prices are modelled as rationals, timestamps as
rationals measured in hours.  Python dictionaries (used by the
persistence layer) are modelled as association lists of string keys and
a dynamic value type.
-/

namespace Autobot

/-- Trading parameters, mirroring `TradingConfig` in `autobot/config.py`. -/
structure TradingConfig where
  starting_capital : ℚ := 10000
  risk_per_trade_pct : ℚ := 5/100
  max_position_pct : ℚ := 30/100
  min_edge_to_trade : ℚ := 30/100
  max_daily_loss_pct : ℚ := 10/100
  max_concurrent_positions : ℕ := 10
  stop_loss_pct : ℚ := 15/100
  take_profit_pct : ℚ := 30/100
  trailing_stop_pct : ℚ := 10/100
  breakeven_trigger_pct : ℚ := 10/100
  use_trailing_stop : Bool := true
  auto_trade_enabled : Bool := true
  paper_trading : Bool := true
deriving Repr, DecidableEq

/-- The default configuration built by `load_config` with no environment
overrides (the field defaults of `TradingConfig`). -/
def defaultTradingConfig : TradingConfig := {}

/-- Edge multiplier used in position sizing:
`edge_multiplier = min(1.2, 0.8 + edge)` in both
`RiskManager.suggest_position_size` and
`TradeExecutor.evaluate_opportunity`. -/
def edge_multiplier (edge : ℚ) : ℚ :=
  min (12/10) (8/10 + edge)

/-- `risk_amount = equity * risk_per_trade_pct`
(`RiskManager.suggest_position_size`, line 171). -/
def risk_amount (cfg : TradingConfig) (equity : ℚ) : ℚ :=
  equity * cfg.risk_per_trade_pct

/-- `base_size = risk_amount / stop_loss_pct`
(`RiskManager.suggest_position_size`, line 172). -/
def base_size (cfg : TradingConfig) (equity : ℚ) : ℚ :=
  risk_amount cfg equity / cfg.stop_loss_pct

/-- `RiskManager.suggest_position_size` (manager.py lines 160-182), with
the current equity (`status.balance`) passed explicitly. -/
def suggest_position_size (cfg : TradingConfig) (equity edge confidence : ℚ) : ℚ :=
  let suggested := base_size cfg equity * edge_multiplier edge * confidence
  let max_position := equity * cfg.max_position_pct
  max 0 (min suggested max_position)

/-- Rejection reasons produced by `RiskManager.check_status`; the
formatted reason strings of the source are abstracted to tags. -/
inductive RMReason where
  | noReason
  | dailyLossLimit
  | maxPositionsReached
  | exposureTooHigh
  | approachingDailyLoss
  | highExposure
deriving Repr, DecidableEq

/-- Mutable pause state of `RiskManager` (`_trading_paused`,
`_pause_reason`, `_pause_until`).  Times are rationals in hours. -/
structure RMState where
  trading_paused : Bool := false
  pause_reason : RMReason := .noReason
  pause_until : Option ℚ := none
deriving Repr, DecidableEq

/-- Portfolio data `check_status` reads from the trader: balance, daily
P&L and the `value` field of each open position. -/
structure RMInputs where
  balance : ℚ
  daily_pnl : ℚ
  position_values : List ℚ
deriving Repr, DecidableEq

/-- The `RiskStatus` record of `manager.py`. -/
structure RiskStatus where
  is_trading_allowed : Bool := true
  reason : RMReason := .noReason
  daily_pnl : ℚ := 0
  daily_pnl_pct : ℚ := 0
  open_positions : ℕ := 0
  total_exposure : ℚ := 0
  exposure_pct : ℚ := 0
  balance : ℚ := 0
  warnings : List RMReason := []
deriving Repr, DecidableEq

/-- The status fields computed before any limit check
(`check_status` lines 58-73). -/
def baseRiskStatus (cfg : TradingConfig) (inp : RMInputs) : RiskStatus :=
  let total_exposure := inp.position_values.sum
  { balance := inp.balance
    daily_pnl := inp.daily_pnl
    daily_pnl_pct := inp.daily_pnl / cfg.starting_capital * 100
    open_positions := inp.position_values.length
    total_exposure := total_exposure
    exposure_pct := if 0 < inp.balance then total_exposure / inp.balance * 100 else 0 }

/-- `RiskManager._pause_trading(reason, hours)`. -/
def pause_trading (s : RMState) (reason : RMReason) (now hours : ℚ) : RMState :=
  { s with trading_paused := true, pause_reason := reason,
           pause_until := some (now + hours) }

/-- The limit checks of `check_status` run once the pause gate has been
passed (lines 86-117): daily loss (which arms a 4 hour pause), position
count, exposure, then non-fatal warnings. -/
def check_core (cfg : TradingConfig) (s : RMState) (now : ℚ) (inp : RMInputs) :
    RiskStatus × RMState :=
  let status := baseRiskStatus cfg inp
  let max_daily_loss := status.balance * cfg.max_daily_loss_pct
  if inp.daily_pnl ≤ -max_daily_loss then
    ({ status with is_trading_allowed := false, reason := .dailyLossLimit,
                   warnings := [.dailyLossLimit] },
     pause_trading s .dailyLossLimit now 4)
  else if cfg.max_concurrent_positions ≤ status.open_positions then
    ({ status with is_trading_allowed := false, reason := .maxPositionsReached }, s)
  else if 80 < status.exposure_pct then
    ({ status with is_trading_allowed := false, reason := .exposureTooHigh,
                   warnings := [.exposureTooHigh] }, s)
  else
    let w1 : List RMReason :=
      if inp.daily_pnl ≤ -max_daily_loss * (1/2) then [.approachingDailyLoss] else []
    let w2 : List RMReason := if 60 < status.exposure_pct then [.highExposure] else []
    ({ status with is_trading_allowed := true, warnings := w1 ++ w2 }, s)

/-- `RiskManager.check_status` (manager.py lines 51-117): the pause gate
followed by `check_core`.  An active pause that has not expired
short-circuits with the stored pause reason; an expired pause is
cleared and evaluation continues. -/
def check_status (cfg : TradingConfig) (s : RMState) (now : ℚ) (inp : RMInputs) :
    RiskStatus × RMState :=
  if s.trading_paused then
    match s.pause_until with
    | some u =>
      if u < now then
        check_core cfg { s with trading_paused := false, pause_reason := .noReason } now inp
      else
        ({ baseRiskStatus cfg inp with is_trading_allowed := false,
                                       reason := s.pause_reason }, s)
    | none =>
      ({ baseRiskStatus cfg inp with is_trading_allowed := false,
                                     reason := s.pause_reason }, s)
  else
    check_core cfg s now inp

/-- `RiskManager.can_trade`: runs `check_status` and returns the flag. -/
def can_trade (cfg : TradingConfig) (s : RMState) (now : ℚ) (inp : RMInputs) :
    Bool × RMState :=
  let r := check_status cfg s now inp
  (r.1.is_trading_allowed, r.2)

/-- A sequence of `check_status` calls threading the manager state. -/
def run_checks (cfg : TradingConfig) (s : RMState) :
    List (ℚ × RMInputs) → List RiskStatus × RMState
  | [] => ([], s)
  | (t, i) :: rest =>
    let r := check_status cfg s t i
    let rs := run_checks cfg r.2 rest
    (r.1 :: rs.1, rs.2)

/-- Order side. -/
inductive Side where
  | BUY
  | SELL
deriving Repr, DecidableEq

/-- Close reasons used by `check_position_limits` / `close_position`. -/
inductive CloseReason where
  | STOP_LOSS
  | TAKE_PROFIT
  | TRAILING_STOP
  | BREAKEVEN_STOP
  | MANUAL
deriving Repr, DecidableEq

/-- An open position record, mirroring the dict built by
`PolymarketTrader._paper_order` (polymarket_client.py lines 283-303). -/
structure Position where
  id : String
  token_id : String
  market : String
  side : Side
  prediction : String
  size : ℚ
  price : ℚ
  value : ℚ
  risk_amount : ℚ
  stop_loss_price : ℚ
  take_profit_price : ℚ
  breakeven_trigger_price : ℚ
  highest_price : ℚ
  breakeven_triggered : Bool
  trailing_stop_active : Bool
  timestamp : String
  paper : Bool
deriving Repr, DecidableEq

/-- The position a paper BUY order creates: trigger levels derived from
the entry price, `highest_price` initialised to the entry price, flags
cleared (`_paper_order`).  A non-positive `risk_amount` argument is
replaced by `value * stop_loss_pct`. -/
def mkPaperPosition (cfg : TradingConfig) (oid token market : String) (side : Side)
    (prediction : String) (size price riskAmt : ℚ) (timestamp : String) : Position :=
  let position_value := size * price
  { id := oid
    token_id := token
    market := market
    side := side
    prediction := if prediction = "" then "YES" else prediction
    size := size
    price := price
    value := position_value
    risk_amount := if riskAmt ≤ 0 then position_value * cfg.stop_loss_pct else riskAmt
    stop_loss_price := price * (1 - cfg.stop_loss_pct)
    take_profit_price := price * (1 + cfg.take_profit_pct)
    breakeven_trigger_price := price * (1 + cfg.breakeven_trigger_pct)
    highest_price := price
    breakeven_triggered := false
    trailing_stop_active := false
    timestamp := timestamp
    paper := true }

/-- The breakeven transition of `check_position_limits` (lines 593-601):
first time the profit fraction reaches `breakeven_trigger_pct`, the stop
moves to the entry price and the trailing stop is enabled when
configured. -/
def apply_breakeven (cfg : TradingConfig) (pos : Position) (pnl_pct entry_price : ℚ) :
    Position :=
  if pos.breakeven_triggered = false ∧ cfg.breakeven_trigger_pct ≤ pnl_pct then
    { pos with breakeven_triggered := true
               stop_loss_price := entry_price
               trailing_stop_active := cfg.use_trailing_stop }
  else pos

/-- The trailing-stop update of `check_position_limits` (lines 603-608):
an active trailing stop is raised to `highest_price * (1 - trailing_stop_pct)`
when that is strictly above the current stop. -/
def apply_trailing (cfg : TradingConfig) (pos : Position) : Position :=
  if pos.trailing_stop_active then
    let trailing_stop_price := pos.highest_price * (1 - cfg.trailing_stop_pct)
    if pos.stop_loss_price < trailing_stop_price then
      { pos with stop_loss_price := trailing_stop_price }
    else pos
  else pos

/-- The trigger checks of `check_position_limits` (lines 614-631): the
stop-loss comparison runs first, the take-profit comparison second and
overwrites the close reason and exit price when it also fires; the exit
price is always the trigger level, never the observed price. -/
def close_decision (pos : Position) (current_price : ℚ) : Option (CloseReason × ℚ) :=
  let stopDecision : Option (CloseReason × ℚ) :=
    if 0 < pos.stop_loss_price ∧ current_price ≤ pos.stop_loss_price then
      some (if pos.trailing_stop_active then CloseReason.TRAILING_STOP
            else if pos.breakeven_triggered then CloseReason.BREAKEVEN_STOP
            else CloseReason.STOP_LOSS,
            pos.stop_loss_price)
    else none
  if pos.take_profit_price ≤ current_price then
    some (CloseReason.TAKE_PROFIT, pos.take_profit_price)
  else stopDecision

/-- One iteration of the `check_position_limits` sweep
(polymarket_client.py lines 571-639) on a single position, with the
current price supplied by the caller (the source draws it from a
simulated price feed).  Returns the updated position together with the
close decision, if any: the close reason and the exit price passed on to
`close_position`. -/
def check_position_tick (cfg : TradingConfig) (pos : Position) (current_price : ℚ) :
    Position × Option (CloseReason × ℚ) :=
  let pnl_pct :=
    match pos.side with
    | .BUY => (current_price - pos.price) / pos.price
    | .SELL => (pos.price - current_price) / pos.price
  let posA :=
    if pos.highest_price < current_price then
      { pos with highest_price := current_price }
    else pos
  let posB := apply_breakeven cfg posA pnl_pct pos.price
  let posC := apply_trailing cfg posB
  (posC, close_decision posC current_price)

/-- Repeated monitor sweeps of a single position along a price path,
stopping at the first sweep that produces a close decision (a closed
position leaves the open set and is not monitored further). -/
def run_price_path (cfg : TradingConfig) (pos : Position) :
    List ℚ → Position × Option (CloseReason × ℚ)
  | [] => (pos, none)
  | p :: ps =>
    let r := check_position_tick cfg pos p
    match r.2 with
    | some d => (r.1, some d)
    | none => run_price_path cfg r.1 ps

/-- Realized P&L of `close_position`:
`(exit - entry) * size` for BUY, mirrored for SELL. -/
def position_pnl (side : Side) (entry_price exit_price size : ℚ) : ℚ :=
  match side with
  | .BUY => (exit_price - entry_price) * size
  | .SELL => (entry_price - exit_price) * size

/-- A closed-trade record (`close_position`, polymarket_client.py lines
364-386); timestamps are omitted, they carry no logic. -/
structure ClosedTrade where
  id : String
  market : String
  token_id : String
  side : Side
  prediction : String
  size : ℚ
  entry_price : ℚ
  exit_price : ℚ
  risk_amount : ℚ
  pnl : ℚ
  pnl_pct : ℚ
  won : Bool
  close_reason : CloseReason
  breakeven_triggered : Bool
  trailing_stop_active : Bool
  highest_price : ℚ
  paper : Bool
deriving Repr, DecidableEq

/-- The mutable trader state touched by `close_position`. -/
structure TraderState where
  paper_balance : ℚ
  daily_pnl : ℚ
  total_pnl : ℚ
  paper_positions : List Position
  closed_trades : List ClosedTrade
deriving Repr, DecidableEq

/-- The result dict returned by `close_position`. -/
structure CloseResult where
  exit_price : ℚ
  pnl : ℚ
  pnl_pct : ℚ
  daily_pnl : ℚ
  total_pnl : ℚ
deriving Repr, DecidableEq

/-- `PolymarketTrader.close_position` (polymarket_client.py lines
320-394) in paper-trading mode: P&L is added to the daily and total
tallies, the balance is credited with `size * exit_price`, the position
is removed from the open list only if it is present (`list.remove`
removes the first occurrence), and a closed trade is appended and
persisted. -/
def close_position (paperTrading : Bool) (st : TraderState) (pos : Position)
    (exit_price : ℚ) (close_reason : CloseReason) : TraderState × CloseResult :=
  let pnl := position_pnl pos.side pos.price exit_price pos.size
  let daily := st.daily_pnl + pnl
  let total := st.total_pnl + pnl
  let balance :=
    if paperTrading then st.paper_balance + pos.size * exit_price else st.paper_balance
  let positions :=
    if paperTrading then st.paper_positions.erase pos else st.paper_positions
  let pnl_pct := if 0 < pos.value then pnl / pos.value * 100 else 0
  let trade : ClosedTrade :=
    { id := pos.id
      market := pos.market
      token_id := pos.token_id
      side := pos.side
      prediction := pos.prediction
      size := pos.size
      entry_price := pos.price
      exit_price := exit_price
      risk_amount := pos.risk_amount
      pnl := pnl
      pnl_pct := pnl_pct
      won := 0 ≤ pnl
      close_reason := close_reason
      breakeven_triggered := pos.breakeven_triggered
      trailing_stop_active := pos.trailing_stop_active
      highest_price := pos.highest_price
      paper := pos.paper }
  ({ paper_balance := balance
     daily_pnl := daily
     total_pnl := total
     paper_positions := positions
     closed_trades := st.closed_trades ++ [trade] },
   { exit_price := exit_price
     pnl := pnl
     pnl_pct := pnl_pct
     daily_pnl := daily
     total_pnl := total })

/-- A sample monitored position that has already passed breakeven, with
the trailing stop running. -/
def c4pos : Position :=
  { mkPaperPosition defaultTradingConfig "p1" "tok1" "m1" Side.BUY "" 100 (1/2) 500 "t0" with
    breakeven_triggered := true
    trailing_stop_active := true
    stop_loss_price := 1/2
    highest_price := 3/5 }

/-- A sample position whose stop-loss and take-profit triggers can both
fire on the same tick. -/
def c5pos : Position :=
  { mkPaperPosition defaultTradingConfig "p2" "tok2" "m2" Side.BUY "" 100 (1/2) 500 "t0" with
    breakeven_triggered := true
    stop_loss_price := 9/10
    take_profit_price := 3/5 }

/-- Cooldown period in hours before trading the same market again
(`MARKET_COOLDOWN_HOURS` in executor.py). -/
def marketCooldownHours : ℚ := 4

/-- Rejection/approval reasons of `TradeExecutor.evaluate_opportunity`;
the formatted reason strings are abstracted to tags. -/
inductive EvalReason where
  | noReason
  | alreadyOpenPosition
  | marketOnCooldown
  | edgeBelowMinimum
  | confidenceTooLow
  | liquidityTooLow
  | dailyLossLimitHit
  | maxConcurrentPositions
  | invalidPrice
  | approvedSummary
deriving Repr, DecidableEq

/-- A matched trading opportunity (`MarketMatch` fields read by the
executor). -/
structure MarketMatch where
  recommended_token : String
  question : String
  edge : ℚ
  confidence : ℚ
  liquidity : ℚ
  current_yes_price : ℚ
  current_no_price : ℚ
  recommended_side : String
deriving Repr, DecidableEq

/-- The decision record built by `evaluate_opportunity`. -/
structure TradeDecision where
  size_usd : ℚ := 0
  size_shares : ℚ := 0
  risk_amount : ℚ := 0
  approved : Bool := false
  reason : EvalReason := .noReason
deriving Repr, DecidableEq

/-- The freshly constructed, unapproved decision. -/
def pendingDecision : TradeDecision := {}

/-- The checks of `evaluate_opportunity` that follow the open-position
and cooldown gates (executor.py lines 156-233): edge, confidence,
liquidity, daily loss, concurrent positions, then equity-based sizing
and approval. -/
def eval_checks (cfg : TradingConfig) (positions : List Position)
    (equity daily_pnl : ℚ) (m : MarketMatch) : TradeDecision :=
  if m.edge < cfg.min_edge_to_trade then
    { pendingDecision with reason := .edgeBelowMinimum }
  else if m.confidence < 6/10 then
    { pendingDecision with reason := .confidenceTooLow }
  else if m.liquidity < 1000 then
    { pendingDecision with reason := .liquidityTooLow }
  else if daily_pnl ≤ -(equity * cfg.max_daily_loss_pct) then
    { pendingDecision with reason := .dailyLossLimitHit }
  else if cfg.max_concurrent_positions ≤ positions.length then
    { pendingDecision with reason := .maxConcurrentPositions }
  else
    let riskAmt := equity * cfg.risk_per_trade_pct
    let baseSz := riskAmt / cfg.stop_loss_pct
    let size_usd := min (baseSz * edge_multiplier m.edge * m.confidence)
      (equity * cfg.max_position_pct)
    let price := if m.recommended_side = "YES" then m.current_yes_price
                 else m.current_no_price
    if price ≤ 0 then
      { pendingDecision with reason := .invalidPrice }
    else
      { size_usd := size_usd
        size_shares := size_usd / price
        risk_amount := riskAmt
        approved := true
        reason := .approvedSummary }

/-- `TradeExecutor.evaluate_opportunity` (executor.py lines 116-233):
the open-position gate, then the cooldown gate against the
`_traded_markets` map (token → last trade time, as recorded by
`execute_trade`), then `eval_checks`. -/
def evaluate_opportunity (cfg : TradingConfig) (positions : List Position)
    (traded_markets : List (String × ℚ)) (now equity daily_pnl : ℚ)
    (m : MarketMatch) : TradeDecision :=
  if positions.any (fun p => p.token_id == m.recommended_token) then
    { pendingDecision with reason := .alreadyOpenPosition }
  else
    match traded_markets.lookup m.recommended_token with
    | some last_trade_time =>
      if now < last_trade_time + marketCooldownHours then
        { pendingDecision with reason := .marketOnCooldown }
      else
        eval_checks cfg positions equity daily_pnl m
    | none => eval_checks cfg positions equity daily_pnl m

/-- A matched opportunity on token `tok3`. -/
def c3match : MarketMatch :=
  { recommended_token := "tok3"
    question := "q3"
    edge := 2/5
    confidence := 4/5
    liquidity := 5000
    current_yes_price := 1/2
    current_no_price := 1/2
    recommended_side := "YES" }

/-- An open paper position on the same token `tok3`. -/
def c3pos : Position :=
  mkPaperPosition defaultTradingConfig "p3" "tok3" "m3" Side.BUY "" 100 (1/2) 500 "t0"

/-- A dynamic Python value as held in position dicts and SQLite cells:
string, number, boolean or None. -/
inductive PyVal where
  | vstr (s : String)
  | vnum (q : ℚ)
  | vbool (b : Bool)
  | vnone
deriving Repr, DecidableEq

/-- A Python dict with string keys, as an association list. -/
abbrev PyDict := List (String × PyVal)

/-- `d.get(k)`: None when the key is absent. -/
def pyGet (d : PyDict) (k : String) : PyVal :=
  (d.lookup k).getD PyVal.vnone

/-- `d.get(k, dflt)`. -/
def pyGetD (d : PyDict) (k : String) (dflt : PyVal) : PyVal :=
  (d.lookup k).getD dflt

/-- Python truthiness, as used by `1 if value else 0` and `bool(value)`. -/
def pyTruthy : PyVal → Bool
  | .vstr s => decide (s ≠ "")
  | .vnum q => decide (q ≠ 0)
  | .vbool b => b
  | .vnone => false

/-- The order dict built by `PolymarketTrader._paper_order`
(polymarket_client.py lines 283-303), including the derived trigger
prices and the `prediction or "YES"` default. -/
def paper_order_dict (cfg : TradingConfig)
    (oid token_id market_question side prediction timestamp : String)
    (size price riskAmt : ℚ) : PyDict :=
  let position_value := size * price
  let stop_loss_price := price * (1 - cfg.stop_loss_pct)
  let take_profit_price := price * (1 + cfg.take_profit_pct)
  let breakeven_trigger_price := price * (1 + cfg.breakeven_trigger_pct)
  let risk_amount := if riskAmt ≤ 0 then position_value * cfg.stop_loss_pct else riskAmt
  [("id", .vstr oid),
   ("token_id", .vstr token_id),
   ("market", .vstr market_question),
   ("side", .vstr side),
   ("prediction", .vstr (if prediction = "" then "YES" else prediction)),
   ("size", .vnum size),
   ("price", .vnum price),
   ("value", .vnum position_value),
   ("risk_amount", .vnum risk_amount),
   ("status", .vstr "FILLED"),
   ("timestamp", .vstr timestamp),
   ("paper", .vbool true),
   ("stop_loss_price", .vnum stop_loss_price),
   ("take_profit_price", .vnum take_profit_price),
   ("breakeven_trigger_price", .vnum breakeven_trigger_price),
   ("highest_price", .vnum price),
   ("breakeven_triggered", .vbool false),
   ("trailing_stop_active", .vbool false)]

/-- A row of the `open_positions` table (database.py lines 157-176). -/
structure OpenPositionRow where
  id : PyVal
  token_id : PyVal
  market : PyVal
  side : PyVal
  size : PyVal
  price : PyVal
  value : PyVal
  risk_amount : PyVal
  stop_loss_price : PyVal
  take_profit_price : PyVal
  breakeven_trigger_price : PyVal
  highest_price : PyVal
  breakeven_triggered : PyVal
  trailing_stop_active : PyVal
  entry_time : PyVal
  paper : PyVal
deriving Repr, DecidableEq

/-- `save_open_position` (database.py lines 397-429): the dict fields it
extracts into the row, with booleans stored as 0/1 integers and the
`timestamp` key stored in the `entry_time` column.  The `prediction` and
`status` keys are not persisted. -/
def save_open_position (position : PyDict) : OpenPositionRow :=
  { id := pyGet position "id"
    token_id := pyGet position "token_id"
    market := pyGet position "market"
    side := pyGet position "side"
    size := pyGet position "size"
    price := pyGet position "price"
    value := pyGet position "value"
    risk_amount := pyGetD position "risk_amount" (.vnum 0)
    stop_loss_price := pyGet position "stop_loss_price"
    take_profit_price := pyGet position "take_profit_price"
    breakeven_trigger_price := pyGet position "breakeven_trigger_price"
    highest_price := pyGet position "highest_price"
    breakeven_triggered :=
      .vnum (if pyTruthy (pyGet position "breakeven_triggered") then 1 else 0)
    trailing_stop_active :=
      .vnum (if pyTruthy (pyGet position "trailing_stop_active") then 1 else 0)
    entry_time := pyGet position "timestamp"
    paper := .vnum (if pyTruthy (pyGet position "paper") then 1 else 0) }

/-- `get_open_positions` (database.py lines 432-462) on one row: the
dict rebuilt from the columns, with 0/1 integers mapped back through
`bool(...)` and `status` hardcoded to FILLED. -/
def load_open_position_row (r : OpenPositionRow) : PyDict :=
  [("id", r.id),
   ("token_id", r.token_id),
   ("market", r.market),
   ("side", r.side),
   ("size", r.size),
   ("price", r.price),
   ("value", r.value),
   ("risk_amount", r.risk_amount),
   ("stop_loss_price", r.stop_loss_price),
   ("take_profit_price", r.take_profit_price),
   ("breakeven_trigger_price", r.breakeven_trigger_price),
   ("highest_price", r.highest_price),
   ("breakeven_triggered", .vbool (pyTruthy r.breakeven_triggered)),
   ("trailing_stop_active", .vbool (pyTruthy r.trailing_stop_active)),
   ("timestamp", r.entry_time),
   ("paper", .vbool (pyTruthy r.paper)),
   ("status", .vstr "FILLED")]

/-- The position of the breakeven scenario: a paper BUY of 100 shares
entered at price 0.50 under the default configuration. -/
def c9pos : Position :=
  mkPaperPosition defaultTradingConfig "paper_1" "tok9" "m9" Side.BUY "" 100 (1/2) 500 "t0"

/-- The default configuration with the trailing stop disabled. -/
def noTrailConfig : TradingConfig :=
  { defaultTradingConfig with use_trailing_stop := false }

end Autobot

namespace Autobot

/-- C1: with nonnegative equity, positive configured risk and stop-loss
fractions, a nonnegative configured max-position fraction, and edge and
confidence in the unit interval, the suggested position size lies
between 0 and `equity * max_position_pct`. -/
theorem suggest_position_size_bounded (cfg : TradingConfig) (equity edge confidence : ℚ)
    (heq : 0 ≤ equity)
    (hrisk : 0 < cfg.risk_per_trade_pct)
    (hsl : 0 < cfg.stop_loss_pct)
    (hmax : 0 ≤ cfg.max_position_pct)
    (hedge0 : 0 ≤ edge) (hedge1 : edge ≤ 1)
    (hconf0 : 0 ≤ confidence) (hconf1 : confidence ≤ 1) :
    0 ≤ suggest_position_size cfg equity edge confidence ∧
      suggest_position_size cfg equity edge confidence ≤ equity * cfg.max_position_pct := by
  unfold suggest_position_size
  constructor
  · exact le_max_left 0 _
  · exact max_le (mul_nonneg heq hmax) (min_le_right _ _)

/-- Witness for C1 at concrete inputs. -/
theorem suggest_position_size_bounded_witness :
    0 ≤ suggest_position_size defaultTradingConfig 10000 (2/5) (4/5) ∧
      suggest_position_size defaultTradingConfig 10000 (2/5) (4/5)
        ≤ 10000 * defaultTradingConfig.max_position_pct :=
  suggest_position_size_bounded defaultTradingConfig 10000 (2/5) (4/5)
    (by norm_num) (by norm_num [defaultTradingConfig])
    (by norm_num [defaultTradingConfig]) (by norm_num [defaultTradingConfig])
    (by norm_num) (by norm_num) (by norm_num) (by norm_num)

/-- C6 counterexample: at `edge = -1/2` the implemented multiplier
`min(1.2, 0.8 + edge)` is `0.3`, which is below the claimed lower bound
`0.8` and differs from `clamp(0.8 + edge, 0.8, 1.2)`. -/
theorem edge_multiplier_not_clamped_below :
    edge_multiplier (-(1/2)) = 3/10 ∧
      edge_multiplier (-(1/2)) < 8/10 ∧
      edge_multiplier (-(1/2)) ≠ max (8/10) (min (12/10) (8/10 + -(1/2))) := by
  refine ⟨?_, ?_, ?_⟩ <;> norm_num [edge_multiplier]

/-- C6 amended: the edge multiplier is `min(1.2, 0.8 + edge)`; it never
exceeds `1.2`, and it is at least `0.8` whenever `edge ≥ 0`, but for
negative edge it falls below `0.8` (no lower clamp is applied). -/
theorem edge_multiplier_bounds (edge : ℚ) :
    edge_multiplier edge = min (12/10) (8/10 + edge) ∧
      edge_multiplier edge ≤ 12/10 ∧
      (0 ≤ edge → 8/10 ≤ edge_multiplier edge) := by
  refine ⟨rfl, min_le_left _ _, fun h => ?_⟩
  unfold edge_multiplier
  have : (8/10 : ℚ) ≤ 8/10 + edge := by linarith
  exact le_min (by norm_num) this

/-- Witness for C6 amended at a concrete edge. -/
theorem edge_multiplier_bounds_witness :
    edge_multiplier (1/10) = min (12/10) (8/10 + 1/10) ∧
      edge_multiplier (1/10) ≤ 12/10 ∧
      (0 ≤ (1/10 : ℚ) → 8/10 ≤ edge_multiplier (1/10)) :=
  edge_multiplier_bounds (1/10)

/-- A paused, unexpired manager returns the stored pause reason and
leaves its state untouched. -/
lemma check_status_paused (cfg : TradingConfig) (s : RMState) (now : ℚ) (inp : RMInputs)
    (u : ℚ) (hp : s.trading_paused = true) (hu : s.pause_until = some u) (ht : now ≤ u) :
    check_status cfg s now inp =
      ({ baseRiskStatus cfg inp with is_trading_allowed := false,
                                     reason := s.pause_reason }, s) := by
  simp [check_status, hp, hu, not_lt.mpr ht]

/-- Any call sequence before the pause expiry is rejected with the
stored pause reason, and the manager state does not change. -/
lemma run_checks_paused (cfg : TradingConfig) (s : RMState) (u : ℚ)
    (hp : s.trading_paused = true) (hu : s.pause_until = some u) :
    ∀ calls : List (ℚ × RMInputs), (∀ c ∈ calls, c.1 ≤ u) →
      (∀ st ∈ (run_checks cfg s calls).1,
          st.is_trading_allowed = false ∧ st.reason = s.pause_reason) ∧
        (run_checks cfg s calls).2 = s := by
  intro calls
  induction calls with
  | nil =>
    intro _
    refine ⟨?_, rfl⟩
    intro st h
    simp [run_checks] at h
  | cons c rest ih =>
    intro hc
    have h1 := check_status_paused cfg s c.1 c.2 u hp hu (hc c (List.mem_cons_self c rest))
    have ih2 := ih (fun d hd => hc d (List.mem_cons_of_mem c hd))
    constructor
    · intro st hst
      simp only [run_checks, h1, List.mem_cons] at hst
      rcases hst with h | h
      · subst h; exact ⟨rfl, rfl⟩
      · exact ih2.1 st h
    · simp only [run_checks, h1]
      exact ih2.2

/-- C2: once a check observes `daily_pnl <= -(equity * max_daily_loss_pct)`
from an unpaused state, trading is disallowed, a 4 hour pause is armed,
every subsequent `check_status`/`can_trade` call at a time not past the
expiry is rejected with the stored pause reason regardless of its inputs
(even if the daily P&L has recovered), the pause state is unchanged by
those calls, and a call strictly after the expiry clears the pause and
continues with the ordinary limit checks. -/
theorem daily_loss_pause_sticky (cfg : TradingConfig) (s : RMState) (t : ℚ)
    (inp : RMInputs) (calls : List (ℚ × RMInputs))
    (hp : s.trading_paused = false)
    (hloss : inp.daily_pnl ≤ -(inp.balance * cfg.max_daily_loss_pct))
    (hc : ∀ c ∈ calls, c.1 ≤ t + 4) :
    (check_status cfg s t inp).1.is_trading_allowed = false ∧
      (check_status cfg s t inp).1.reason = .dailyLossLimit ∧
      (check_status cfg s t inp).2.trading_paused = true ∧
      (check_status cfg s t inp).2.pause_until = some (t + 4) ∧
      (check_status cfg s t inp).2.pause_reason = .dailyLossLimit ∧
      (∀ st ∈ (run_checks cfg (check_status cfg s t inp).2 calls).1,
          st.is_trading_allowed = false ∧
            st.reason = (check_status cfg s t inp).2.pause_reason) ∧
      (run_checks cfg (check_status cfg s t inp).2 calls).2 =
        (check_status cfg s t inp).2 ∧
      (∀ t' : ℚ, ∀ inp' : RMInputs, t + 4 < t' →
          check_status cfg (check_status cfg s t inp).2 t' inp' =
            check_core cfg
              { (check_status cfg s t inp).2 with
                trading_paused := false, pause_reason := .noReason } t' inp') := by
  have hcs : check_status cfg s t inp =
      (({ baseRiskStatus cfg inp with
          is_trading_allowed := false
          reason := RMReason.dailyLossLimit
          warnings := [RMReason.dailyLossLimit] } : RiskStatus),
       pause_trading s RMReason.dailyLossLimit t 4) := by
    simp [check_status, hp, check_core, baseRiskStatus, hloss]
  rw [hcs]
  have hrun := run_checks_paused cfg (pause_trading s .dailyLossLimit t 4) (t + 4)
    (by simp [pause_trading]) (by simp [pause_trading]) calls hc
  refine ⟨rfl, rfl, rfl, rfl, rfl, hrun.1, hrun.2, ?_⟩
  intro t' inp' ht'
  simp [check_status, pause_trading, ht']

/-- Witness for C2 at concrete inputs: starting unpaused at time 0 with
a 1500 loss on a 10000 balance (limit 1000), followed by two recovered
calls inside the window. -/
theorem daily_loss_pause_sticky_witness :
    (RMState.trading_paused {} = false ∧
        (-1500 : ℚ) ≤ -((10000 : ℚ) * defaultTradingConfig.max_daily_loss_pct) ∧
        (∀ c ∈ [((1 : ℚ), RMInputs.mk 10000 0 []), ((4 : ℚ), RMInputs.mk 10000 500 [])],
            c.1 ≤ (0 : ℚ) + 4)) ∧
      (check_status defaultTradingConfig {} 0 (RMInputs.mk 10000 (-1500) [])).1.is_trading_allowed
        = false := by
  have h := daily_loss_pause_sticky defaultTradingConfig {} 0
    (RMInputs.mk 10000 (-1500) [])
    [((1 : ℚ), RMInputs.mk 10000 0 []), ((4 : ℚ), RMInputs.mk 10000 500 [])]
    rfl (by norm_num [defaultTradingConfig]) (by intro c hc; fin_cases hc <;> norm_num)
  exact ⟨⟨rfl, by norm_num [defaultTradingConfig], by intro c hc; fin_cases hc <;> norm_num⟩,
    h.1⟩

/-- A position that has already triggered breakeven is left unchanged by
the breakeven transition. -/
lemma apply_breakeven_triggered (cfg : TradingConfig) (pos : Position)
    (pnl_pct entry_price : ℚ) (h : pos.breakeven_triggered = true) :
    apply_breakeven cfg pos pnl_pct entry_price = pos := by
  simp [apply_breakeven, h]

/-- The trailing-stop update never lowers the stop, leaves the other
fields alone, and raises the stop only to the trailing level and only
strictly. -/
lemma apply_trailing_spec (cfg : TradingConfig) (pos : Position) :
    pos.stop_loss_price ≤ (apply_trailing cfg pos).stop_loss_price ∧
      (apply_trailing cfg pos).breakeven_triggered = pos.breakeven_triggered ∧
      (apply_trailing cfg pos).highest_price = pos.highest_price ∧
      (apply_trailing cfg pos).take_profit_price = pos.take_profit_price ∧
      ((apply_trailing cfg pos).stop_loss_price = pos.stop_loss_price ∨
        (pos.stop_loss_price < (apply_trailing cfg pos).stop_loss_price ∧
          (apply_trailing cfg pos).stop_loss_price =
            pos.highest_price * (1 - cfg.trailing_stop_pct))) := by
  unfold apply_trailing
  dsimp only
  split_ifs with h1 h2
  · exact ⟨le_of_lt h2, rfl, rfl, rfl, Or.inr ⟨h2, rfl⟩⟩
  · exact ⟨le_refl _, rfl, rfl, rfl, Or.inl rfl⟩
  · exact ⟨le_refl _, rfl, rfl, rfl, Or.inl rfl⟩

/-- C4: once `breakeven_triggered` is true for a BUY position, a monitor
tick keeps the flag set and never lowers `stop_loss_price`: the stop is
either unchanged or strictly raised to the trailing level
`highest_price * (1 - trailing_stop_pct)`. -/
theorem breakeven_stop_monotone (cfg : TradingConfig) (pos : Position) (current_price : ℚ)
    (hside : pos.side = Side.BUY) (hbt : pos.breakeven_triggered = true) :
    (check_position_tick cfg pos current_price).1.breakeven_triggered = true ∧
      pos.stop_loss_price ≤ (check_position_tick cfg pos current_price).1.stop_loss_price ∧
      ((check_position_tick cfg pos current_price).1.stop_loss_price = pos.stop_loss_price ∨
        (pos.stop_loss_price < (check_position_tick cfg pos current_price).1.stop_loss_price ∧
          (check_position_tick cfg pos current_price).1.stop_loss_price =
            (check_position_tick cfg pos current_price).1.highest_price *
              (1 - cfg.trailing_stop_pct))) := by
  unfold check_position_tick
  dsimp only
  set posA := if pos.highest_price < current_price then
      { pos with highest_price := current_price } else pos with hA
  have hAbt : posA.breakeven_triggered = true := by
    rw [hA]; split <;> exact hbt
  have hAstop : posA.stop_loss_price = pos.stop_loss_price := by
    rw [hA]; split <;> rfl
  rw [apply_breakeven_triggered cfg posA _ _ hAbt]
  have ht := apply_trailing_spec cfg posA
  refine ⟨?_, ?_, ?_⟩
  · rw [ht.2.1]; exact hAbt
  · rw [← hAstop]; exact ht.1
  · rcases ht.2.2.2.2 with h | h
    · exact Or.inl (by rw [h, hAstop])
    · exact Or.inr ⟨by rw [← hAstop]; exact h.1, by rw [h.2, ht.2.2.1]⟩

/-- Witness for C4: a tick at price 0.55 on a breakeven-triggered
position with trailing stop active. -/
theorem breakeven_stop_monotone_witness :
    (check_position_tick defaultTradingConfig c4pos (11/20)).1.breakeven_triggered = true ∧
      c4pos.stop_loss_price ≤
        (check_position_tick defaultTradingConfig c4pos (11/20)).1.stop_loss_price ∧
      ((check_position_tick defaultTradingConfig c4pos (11/20)).1.stop_loss_price
          = c4pos.stop_loss_price ∨
        (c4pos.stop_loss_price <
            (check_position_tick defaultTradingConfig c4pos (11/20)).1.stop_loss_price ∧
          (check_position_tick defaultTradingConfig c4pos (11/20)).1.stop_loss_price =
            (check_position_tick defaultTradingConfig c4pos (11/20)).1.highest_price *
              (1 - defaultTradingConfig.trailing_stop_pct))) :=
  breakeven_stop_monotone defaultTradingConfig c4pos (11/20) rfl rfl

/-- The second trigger check overwrites the first: take-profit wins over
stop-loss, and every close decision carries the trigger level as exit
price. -/
lemma close_decision_spec (q : Position) (p : ℚ) :
    (p ≤ q.stop_loss_price → q.take_profit_price ≤ p →
      close_decision q p = some (CloseReason.TAKE_PROFIT, q.take_profit_price)) ∧
      (∀ r e, close_decision q p = some (r, e) →
        (r = CloseReason.TAKE_PROFIT ∧ e = q.take_profit_price) ∨
          (r ≠ CloseReason.TAKE_PROFIT ∧ e = q.stop_loss_price)) := by
  unfold close_decision
  dsimp only
  by_cases htp : q.take_profit_price ≤ p
  · rw [if_pos htp]
    refine ⟨fun _ _ => rfl, fun r e h => ?_⟩
    injection h with h'
    injection h' with h1 h2
    exact Or.inl ⟨h1.symm, h2.symm⟩
  · rw [if_neg htp]
    refine ⟨fun _ h2 => absurd h2 htp, fun r e h => ?_⟩
    by_cases hsl : 0 < q.stop_loss_price ∧ p ≤ q.stop_loss_price
    · rw [if_pos hsl] at h
      injection h with h'
      injection h' with h1 h2
      refine Or.inr ⟨?_, h2.symm⟩
      rw [← h1]
      split_ifs <;> decide
    · rw [if_neg hsl] at h
      cases h

/-- The monitor tick never changes the take-profit level. -/
lemma tick_take_profit (cfg : TradingConfig) (pos : Position) (p : ℚ) :
    (check_position_tick cfg pos p).1.take_profit_price = pos.take_profit_price := by
  unfold check_position_tick apply_breakeven apply_trailing
  dsimp only
  split_ifs <;> rfl

/-- The close decision of a tick is `close_decision` of the updated
position. -/
lemma tick_decision (cfg : TradingConfig) (pos : Position) (p : ℚ) :
    (check_position_tick cfg pos p).2 =
      close_decision (check_position_tick cfg pos p).1 p := rfl

/-- C5: in a single monitor sweep of one position the stop-loss check
runs before the take-profit check; when the tick price is at or below
the (updated) stop and at or above the take-profit level, the close
decision is TAKE_PROFIT, and every close decision's exit price is the
trigger level itself — the take-profit price for TAKE_PROFIT, the stop
price for the stop family — never the observed price. -/
theorem stop_takeprofit_tiebreak (cfg : TradingConfig) (pos : Position) (current_price : ℚ) :
    (current_price ≤ (check_position_tick cfg pos current_price).1.stop_loss_price →
      pos.take_profit_price ≤ current_price →
      (check_position_tick cfg pos current_price).2 =
        some (CloseReason.TAKE_PROFIT, pos.take_profit_price)) ∧
      (∀ r e, (check_position_tick cfg pos current_price).2 = some (r, e) →
        (r = CloseReason.TAKE_PROFIT ∧ e = pos.take_profit_price) ∨
          (r ≠ CloseReason.TAKE_PROFIT ∧
            e = (check_position_tick cfg pos current_price).1.stop_loss_price)) := by
  have hq := close_decision_spec (check_position_tick cfg pos current_price).1 current_price
  have htp := tick_take_profit cfg pos current_price
  rw [tick_decision]
  constructor
  · intro h1 h2
    rw [← htp] at h2
    rw [hq.1 h1 h2, htp]
  · intro r e h
    rcases hq.2 r e h with h' | h'
    · exact Or.inl ⟨h'.1, by rw [h'.2, htp]⟩
    · exact Or.inr h'

/-- Witness for C5: a tick at price 0.7 where the stop (0.9) and the
take-profit (0.6) both fire; the decision is TAKE_PROFIT at 0.6. -/
theorem stop_takeprofit_tiebreak_witness :
    (7/10 : ℚ) ≤ (check_position_tick defaultTradingConfig c5pos (7/10)).1.stop_loss_price ∧
      c5pos.take_profit_price ≤ (7/10 : ℚ) ∧
      (check_position_tick defaultTradingConfig c5pos (7/10)).2 =
        some (CloseReason.TAKE_PROFIT, c5pos.take_profit_price) := by
  have h1 : (7/10 : ℚ) ≤
      (check_position_tick defaultTradingConfig c5pos (7/10)).1.stop_loss_price := by
    norm_num [check_position_tick, apply_breakeven, apply_trailing, c5pos,
      mkPaperPosition, defaultTradingConfig]
  have h2 : c5pos.take_profit_price ≤ (7/10 : ℚ) := by
    norm_num [c5pos, mkPaperPosition, defaultTradingConfig]
  exact ⟨h1, h2, (stop_takeprofit_tiebreak defaultTradingConfig c5pos (7/10)).1 h1 h2⟩

/-- C9 counterexample: under the default configuration
(`use_trailing_stop = true`) the price path 0.50 → 0.60 → 0.55 → 0.50
does not close with BREAKEVEN_STOP at 0.50: the 0.60 tick raises the
stop to the trailing level 0.54, and the final tick closes with
TRAILING_STOP at exit 0.54, with a positive P&L of 4 on 100 shares. -/
theorem breakeven_scenario_default_config :
    (run_price_path defaultTradingConfig c9pos [1/2, 3/5, 11/20, 1/2]).2 =
      some (CloseReason.TRAILING_STOP, 27/50) ∧
      position_pnl Side.BUY (1/2) (27/50) 100 = 4 := by
  constructor
  · norm_num [run_price_path, check_position_tick, apply_breakeven, apply_trailing,
      close_decision, c9pos, mkPaperPosition, defaultTradingConfig]
  · norm_num [position_pnl]

/-- C9 amended: with the trailing stop disabled the scenario holds as
stated: entry levels are take-profit 0.65 and stop-loss 0.425, the 0.60
tick triggers breakeven and moves the stop to the entry price 0.50
without closing, and the final 0.50 tick closes with BREAKEVEN_STOP at
exit 0.50, for a realized P&L of 0. -/
theorem breakeven_scenario_no_trailing :
    c9pos.take_profit_price = 13/20 ∧
      c9pos.stop_loss_price = 17/40 ∧
      (run_price_path noTrailConfig c9pos [1/2, 3/5]).2 = none ∧
      (run_price_path noTrailConfig c9pos [1/2, 3/5]).1.breakeven_triggered = true ∧
      (run_price_path noTrailConfig c9pos [1/2, 3/5]).1.stop_loss_price = 1/2 ∧
      (run_price_path noTrailConfig c9pos [1/2, 3/5, 11/20, 1/2]).2 =
        some (CloseReason.BREAKEVEN_STOP, 1/2) ∧
      (close_position true (TraderState.mk 10000 0 0 [] [])
          (run_price_path noTrailConfig c9pos [1/2, 3/5, 11/20, 1/2]).1 (1/2)
          CloseReason.BREAKEVEN_STOP).2.pnl = 0 := by
  refine ⟨?_, ?_, ?_, ?_, ?_, ?_, ?_⟩ <;>
    norm_num [run_price_path, check_position_tick, apply_breakeven, apply_trailing,
      close_decision, close_position, position_pnl, c9pos, mkPaperPosition,
      defaultTradingConfig, noTrailConfig]

/-- C10: closing a position that is not in the open-position list is
not a no-op: the P&L tallies, the paper balance and the closed-trade log
are all still updated (so a double close double-counts), while the open
list itself is unchanged — the membership check guards only the
removal. -/
theorem close_position_not_noop (st : TraderState) (pos : Position) (exit_price : ℚ)
    (close_reason : CloseReason) (h : pos ∉ st.paper_positions) :
    (close_position true st pos exit_price close_reason).1.daily_pnl =
        st.daily_pnl + position_pnl pos.side pos.price exit_price pos.size ∧
      (close_position true st pos exit_price close_reason).1.total_pnl =
        st.total_pnl + position_pnl pos.side pos.price exit_price pos.size ∧
      (close_position true st pos exit_price close_reason).1.paper_balance =
        st.paper_balance + pos.size * exit_price ∧
      (close_position true st pos exit_price close_reason).1.paper_positions =
        st.paper_positions ∧
      (close_position true st pos exit_price close_reason).1.closed_trades.length =
        st.closed_trades.length + 1 := by
  refine ⟨rfl, rfl, rfl, ?_, ?_⟩
  · simp [close_position, List.erase_of_not_mem h]
  · simp [close_position]

/-- Witness for C10: closing a paper position against an empty open
list still books its P&L, credits the balance and logs a trade. -/
theorem close_position_not_noop_witness :
    c9pos ∉ (TraderState.mk 10000 (-5) 20 [] []).paper_positions ∧
      (close_position true (TraderState.mk 10000 (-5) 20 [] []) c9pos (3/5)
          CloseReason.MANUAL).1.daily_pnl =
        (-5) + position_pnl c9pos.side c9pos.price (3/5) c9pos.size ∧
      (close_position true (TraderState.mk 10000 (-5) 20 [] []) c9pos (3/5)
          CloseReason.MANUAL).1.paper_balance = 10000 + c9pos.size * (3/5) ∧
      (close_position true (TraderState.mk 10000 (-5) 20 [] []) c9pos (3/5)
          CloseReason.MANUAL).1.paper_positions = [] ∧
      (close_position true (TraderState.mk 10000 (-5) 20 [] []) c9pos (3/5)
          CloseReason.MANUAL).1.closed_trades.length = 1 := by
  have h : c9pos ∉ (TraderState.mk 10000 (-5) 20 [] []).paper_positions := by
    simp
  have hthm := close_position_not_noop (TraderState.mk 10000 (-5) 20 [] []) c9pos (3/5)
    CloseReason.MANUAL h
  exact ⟨h, hthm.1, hthm.2.2.1, hthm.2.2.2.1, hthm.2.2.2.2⟩

/-- The post-gate checks can produce any reason except the cooldown
one. -/
lemma eval_checks_reason_ne (cfg : TradingConfig) (positions : List Position)
    (equity daily_pnl : ℚ) (m : MarketMatch) :
    (eval_checks cfg positions equity daily_pnl m).reason ≠ EvalReason.marketOnCooldown := by
  unfold eval_checks
  dsimp only
  split_ifs <;> simp [pendingDecision]

/-- C3 counterexample: in the executor state produced by recording a
trade on a token (cooldown entry at time 0 AND an open position on that
token), an evaluation inside the cooldown window (time 1 < 0 + 4) is
rejected with the open-position reason, not the cooldown reason — the
open-position gate runs first and masks the cooldown. -/
theorem cooldown_masked_by_open_position :
    (1 : ℚ) < 0 + marketCooldownHours ∧
      (evaluate_opportunity defaultTradingConfig [c3pos] [("tok3", 0)]
          1 10000 0 c3match).approved = false ∧
      (evaluate_opportunity defaultTradingConfig [c3pos] [("tok3", 0)]
          1 10000 0 c3match).reason = EvalReason.alreadyOpenPosition ∧
      EvalReason.alreadyOpenPosition ≠ EvalReason.marketOnCooldown := by
  refine ⟨by norm_num [marketCooldownHours], ?_, ?_, by simp⟩ <;>
    simp [evaluate_opportunity, c3pos, c3match, mkPaperPosition, pendingDecision]

/-- C3 amended: provided no open position exists on token T at
evaluation time (the open-position gate precedes the cooldown gate and
otherwise masks it), once a trade on T is recorded at time t, every
evaluation strictly before `t + 4` hours returns an unapproved decision
with the cooldown reason, and an evaluation at or after `t + 4` hours is
never rejected with that reason. -/
theorem cooldown_enforcement (cfg : TradingConfig) (positions : List Position)
    (traded_markets : List (String × ℚ)) (now equity daily_pnl t : ℚ)
    (m : MarketMatch)
    (hopen : ∀ p ∈ positions, p.token_id ≠ m.recommended_token)
    (htraded : traded_markets.lookup m.recommended_token = some t) :
    (now < t + marketCooldownHours →
      (evaluate_opportunity cfg positions traded_markets now equity daily_pnl m).approved
          = false ∧
        (evaluate_opportunity cfg positions traded_markets now equity daily_pnl m).reason
          = EvalReason.marketOnCooldown) ∧
      (t + marketCooldownHours ≤ now →
        (evaluate_opportunity cfg positions traded_markets now equity daily_pnl m).reason
          ≠ EvalReason.marketOnCooldown) := by
  have hany : positions.any (fun p => p.token_id == m.recommended_token) = false := by
    rw [List.any_eq_false]
    intro p hp
    simpa using hopen p hp
  unfold evaluate_opportunity
  rw [hany, htraded]
  dsimp only
  constructor
  · intro hlt
    rw [if_pos hlt]
    exact ⟨rfl, rfl⟩
  · intro hge
    rw [if_neg (not_lt.mpr hge)]
    exact eval_checks_reason_ne cfg positions equity daily_pnl m

/-- Witness for C3 amended: no open position, cooldown entry at time 0,
evaluation at time 1 is rejected with the cooldown reason. -/
theorem cooldown_enforcement_witness :
    (∀ p ∈ ([] : List Position), p.token_id ≠ c3match.recommended_token) ∧
      ([("tok3", (0 : ℚ))].lookup c3match.recommended_token = some 0) ∧
      ((1 : ℚ) < 0 + marketCooldownHours) ∧
      (evaluate_opportunity defaultTradingConfig [] [("tok3", 0)]
          1 10000 0 c3match).approved = false ∧
      (evaluate_opportunity defaultTradingConfig [] [("tok3", 0)]
          1 10000 0 c3match).reason = EvalReason.marketOnCooldown := by
  have hopen : ∀ p ∈ ([] : List Position), p.token_id ≠ c3match.recommended_token := by
    intro p hp; cases hp
  have htraded : [("tok3", (0 : ℚ))].lookup c3match.recommended_token = some 0 := by
    simp [c3match, List.lookup]
  have h := (cooldown_enforcement defaultTradingConfig [] [("tok3", 0)] 1 10000 0 0
    c3match hopen htraded).1 (by norm_num [marketCooldownHours])
  exact ⟨hopen, htraded, by norm_num [marketCooldownHours], h.1, h.2⟩

/-- C7 counterexample: a concrete paper order carries
`prediction = "YES"`, but after `save_open_position` and
`get_open_positions` the reloaded record has no `prediction` key at all,
so the round trip is not identical in all fields the order carried. -/
theorem position_roundtrip_drops_prediction :
    (paper_order_dict defaultTradingConfig "paper_1" "tok7" "m7" "BUY" "" "t0"
        100 (1/2) 500).lookup "prediction" = some (PyVal.vstr "YES") ∧
      (load_open_position_row (save_open_position
          (paper_order_dict defaultTradingConfig "paper_1" "tok7" "m7" "BUY" "" "t0"
            100 (1/2) 500))).lookup "prediction" = none := by
  exact ⟨rfl, rfl⟩

/-- C7 amended: for every paper order, saving with `save_open_position`
and reloading with `get_open_positions` reproduces every persisted field
identically — id, token_id, market, side, size, price, value,
risk_amount, stop_loss_price, take_profit_price,
breakeven_trigger_price, highest_price, breakeven_triggered,
trailing_stop_active, timestamp, paper, and the (constant) status — but
the `prediction` field is not persisted and is absent after reload. -/
theorem position_roundtrip_fields (cfg : TradingConfig)
    (oid token_id market_question side prediction timestamp : String)
    (size price riskAmt : ℚ) :
    (load_open_position_row (save_open_position
          (paper_order_dict cfg oid token_id market_question side prediction timestamp
            size price riskAmt))).lookup "id" =
        (paper_order_dict cfg oid token_id market_question side prediction timestamp
          size price riskAmt).lookup "id" ∧
      (load_open_position_row (save_open_position
          (paper_order_dict cfg oid token_id market_question side prediction timestamp
            size price riskAmt))).lookup "token_id" =
        (paper_order_dict cfg oid token_id market_question side prediction timestamp
          size price riskAmt).lookup "token_id" ∧
      (load_open_position_row (save_open_position
          (paper_order_dict cfg oid token_id market_question side prediction timestamp
            size price riskAmt))).lookup "market" =
        (paper_order_dict cfg oid token_id market_question side prediction timestamp
          size price riskAmt).lookup "market" ∧
      (load_open_position_row (save_open_position
          (paper_order_dict cfg oid token_id market_question side prediction timestamp
            size price riskAmt))).lookup "side" =
        (paper_order_dict cfg oid token_id market_question side prediction timestamp
          size price riskAmt).lookup "side" ∧
      (load_open_position_row (save_open_position
          (paper_order_dict cfg oid token_id market_question side prediction timestamp
            size price riskAmt))).lookup "size" =
        (paper_order_dict cfg oid token_id market_question side prediction timestamp
          size price riskAmt).lookup "size" ∧
      (load_open_position_row (save_open_position
          (paper_order_dict cfg oid token_id market_question side prediction timestamp
            size price riskAmt))).lookup "price" =
        (paper_order_dict cfg oid token_id market_question side prediction timestamp
          size price riskAmt).lookup "price" ∧
      (load_open_position_row (save_open_position
          (paper_order_dict cfg oid token_id market_question side prediction timestamp
            size price riskAmt))).lookup "value" =
        (paper_order_dict cfg oid token_id market_question side prediction timestamp
          size price riskAmt).lookup "value" ∧
      (load_open_position_row (save_open_position
          (paper_order_dict cfg oid token_id market_question side prediction timestamp
            size price riskAmt))).lookup "risk_amount" =
        (paper_order_dict cfg oid token_id market_question side prediction timestamp
          size price riskAmt).lookup "risk_amount" ∧
      (load_open_position_row (save_open_position
          (paper_order_dict cfg oid token_id market_question side prediction timestamp
            size price riskAmt))).lookup "stop_loss_price" =
        (paper_order_dict cfg oid token_id market_question side prediction timestamp
          size price riskAmt).lookup "stop_loss_price" ∧
      (load_open_position_row (save_open_position
          (paper_order_dict cfg oid token_id market_question side prediction timestamp
            size price riskAmt))).lookup "take_profit_price" =
        (paper_order_dict cfg oid token_id market_question side prediction timestamp
          size price riskAmt).lookup "take_profit_price" ∧
      (load_open_position_row (save_open_position
          (paper_order_dict cfg oid token_id market_question side prediction timestamp
            size price riskAmt))).lookup "breakeven_trigger_price" =
        (paper_order_dict cfg oid token_id market_question side prediction timestamp
          size price riskAmt).lookup "breakeven_trigger_price" ∧
      (load_open_position_row (save_open_position
          (paper_order_dict cfg oid token_id market_question side prediction timestamp
            size price riskAmt))).lookup "highest_price" =
        (paper_order_dict cfg oid token_id market_question side prediction timestamp
          size price riskAmt).lookup "highest_price" ∧
      (load_open_position_row (save_open_position
          (paper_order_dict cfg oid token_id market_question side prediction timestamp
            size price riskAmt))).lookup "breakeven_triggered" =
        (paper_order_dict cfg oid token_id market_question side prediction timestamp
          size price riskAmt).lookup "breakeven_triggered" ∧
      (load_open_position_row (save_open_position
          (paper_order_dict cfg oid token_id market_question side prediction timestamp
            size price riskAmt))).lookup "trailing_stop_active" =
        (paper_order_dict cfg oid token_id market_question side prediction timestamp
          size price riskAmt).lookup "trailing_stop_active" ∧
      (load_open_position_row (save_open_position
          (paper_order_dict cfg oid token_id market_question side prediction timestamp
            size price riskAmt))).lookup "timestamp" =
        (paper_order_dict cfg oid token_id market_question side prediction timestamp
          size price riskAmt).lookup "timestamp" ∧
      (load_open_position_row (save_open_position
          (paper_order_dict cfg oid token_id market_question side prediction timestamp
            size price riskAmt))).lookup "paper" =
        (paper_order_dict cfg oid token_id market_question side prediction timestamp
          size price riskAmt).lookup "paper" ∧
      (load_open_position_row (save_open_position
          (paper_order_dict cfg oid token_id market_question side prediction timestamp
            size price riskAmt))).lookup "status" =
        (paper_order_dict cfg oid token_id market_question side prediction timestamp
          size price riskAmt).lookup "status" ∧
      (load_open_position_row (save_open_position
          (paper_order_dict cfg oid token_id market_question side prediction timestamp
            size price riskAmt))).lookup "prediction" = none := by
  refine ⟨?_, ?_, ?_, ?_, ?_, ?_, ?_, ?_, ?_, ?_, ?_, ?_, ?_, ?_, ?_, ?_, ?_, ?_⟩ <;> rfl

/-- C8: the worked sizing scenario.  With equity 10000 and the default
configuration (risk 5%, stop-loss 15%, max position 30%), edge 0.4 and
confidence 0.8: the risk amount is 500, the base size is 10000/3 (which
prints as 3333.33 to two decimals), the edge multiplier is 1.2, the raw
size is 3200, and the final suggested size is exactly 3000. -/
theorem sizing_scenario :
    risk_amount defaultTradingConfig 10000 = 500 ∧
      base_size defaultTradingConfig 10000 = 10000/3 ∧
      round ((base_size defaultTradingConfig 10000) * 100) = 333333 ∧
      edge_multiplier (2/5) = 12/10 ∧
      base_size defaultTradingConfig 10000 * edge_multiplier (2/5) * (4/5) = 3200 ∧
      suggest_position_size defaultTradingConfig 10000 (2/5) (4/5) = 3000 := by
  refine ⟨?_, ?_, ?_, ?_, ?_, ?_⟩ <;>
    norm_num [risk_amount, base_size, edge_multiplier, suggest_position_size,
      defaultTradingConfig, round_eq]

end Autobot
